import Mathlib

/-!
Verification of `DetachDocument` in `server/rpc/cluster_server.go` of the
yorkie repository.

The function under scrutiny is a straight-line orchestration of external
collaborators (the distributed-lock coordinator, the client/document
directory, the snapshot builder and the Push-Pull engine).  Those
collaborators live outside the given source file, so they are modelled as an
environment `Env` of fallible functions; `DetachDocument` itself is embedded
faithfully from the Go source, threading an explicit trace of the
collaborator calls it performs (a `List Step`) next to its result, so that
claims about call order, fail-fast behaviour and lock discipline become
statements about that trace.
-/

namespace Yorkie

/-- Project identifier (string-valued database id). -/
abbrev ProjectID := String

/-- Document identifier (string-valued database id). -/
abbrev DocID := String

/-- User-chosen document key. -/
abbrev DocKey := String

/-- Client identifier as stored in the directory. -/
abbrev ClientID := String

/-- An actor id, canonically represented by its hex encoding.
Modelled from the spec: "ActorID: immutable, globally unique identifier
minted once per client session". -/
structure ActorID where
  hex : String
deriving DecidableEq, Repr

/-- The error taxonomy of the spec (§7), plus a generic constructor for
errors produced by collaborators that are outside the taxonomy. -/
inductive Err where
  | invalidActorID
  | clientNotFound
  | clientNotActive
  | docNotFound
  | lockTimeout
  | lockUnavailable
  | snapshotBuildFailed
  | staleChangePack
  | invalidDocumentStatus
  | persistenceFailure
  | other (n : Nat)
deriving DecidableEq, Repr

/-- Is the character a hexadecimal digit? -/
def isHexDigit (c : Char) : Bool :=
  (Char.ofNat 48 ≤ c && c ≤ Char.ofNat 57) ||
  (Char.ofNat 97 ≤ c && c ≤ Char.ofNat 102) ||
  (Char.ofNat 65 ≤ c && c ≤ Char.ofNat 70)

/-- Modelled from the spec: `time.ActorIDFromHex` is not part of the given
source file.  "Parsing: converting an external representation (e.g., a hex
string) into an ActorID fails with `InvalidActorID` on malformed input."
A string is well-formed when it is a non-empty, even-length sequence of hex
digits (the requirement of byte-wise hex decoding). -/
def ActorIDFromHex (s : String) : Except Err ActorID :=
  if s.length ≠ 0 && s.length % 2 == 0 && s.toList.all isHexDigit then
    .ok ⟨s⟩
  else
    .error .invalidActorID

/-- Checkpoint `(serverSeq, clientSeq)` progress marker. -/
structure Checkpoint where
  serverSeq : Nat
  clientSeq : Nat
deriving DecidableEq, Repr

/-- The document summary carried by the request (`req.Msg.DocumentSummary`),
restricted to the fields the function reads: `ID` and `Key`. -/
structure DocumentSummary where
  id : DocID
  key : DocKey
deriving DecidableEq, Repr

/-- The project carried by the request (`req.Msg.Project`), restricted to the
field the function reads: `ID`. -/
structure Project where
  id : ProjectID
deriving DecidableEq, Repr

/-- The request message of `ClusterServiceDetachDocumentRequest`. -/
structure DetachRequest where
  clientId : String
  documentSummary : DocumentSummary
  project : Project
deriving DecidableEq, Repr

/-- The (empty) response message of `ClusterServiceDetachDocumentResponse`. -/
structure ClusterServiceDetachDocumentResponse where
deriving DecidableEq, Repr

/-- Modelled from the spec: `converter.FromDocumentSummary` converts the wire
representation into the internal one; on the modelled fields it is the
identity. -/
def FromDocumentSummary (s : DocumentSummary) : DocumentSummary := s

/-- Modelled from the spec: `converter.FromProject` converts the wire
representation into the internal one; on the modelled field it is the
identity. -/
def FromProject (p : Project) : Project := p

/-- Modelled from the spec: `packs.PushPullKey(projectID, docKey)`; "lock
identity is purely a function of `(projectID, documentKey)`". -/
structure PushPullKey where
  projectID : ProjectID
  docKey : DocKey
deriving DecidableEq, Repr

/-- Reference key of a client record, `types.ClientRefKey`. -/
structure ClientRefKey where
  projectID : ProjectID
  clientID : ClientID
deriving DecidableEq, Repr

/-- Reference key of a document record, `types.DocRefKey`. -/
structure DocRefKey where
  projectID : ProjectID
  docID : DocID
deriving DecidableEq, Repr

/-- Modelled from the spec: `types.IDFromActorID` turns an actor id into the
directory's client id. -/
def IDFromActorID (a : ActorID) : ClientID := a.hex

/-- Directory record of a client; the function only reads its per-document
checkpoint (`clientInfo.Checkpoint(summary.ID)`). -/
structure ClientInfo where
  checkpoint : DocID → Checkpoint

/-- Directory record of a document; its contents are opaque to the function,
which only passes it on to collaborators. -/
structure DocInfo where
  refKey : DocRefKey
deriving DecidableEq, Repr

/-- Presence: ephemeral key/value state of a client on a document. -/
structure Presence where
  entries : List (String × String)
deriving DecidableEq, Repr

/-- Modelled from the spec (§4.5): "`clear()`: resets a client's presence for
a document to empty". -/
def Presence.Clear (_ : Presence) : Presence := ⟨[]⟩

/-- The document's JSON root; its contents are opaque to the function (no
claim inspects them), so a single opaque field stands for the whole tree. -/
structure JsonObject where
  content : Nat
deriving DecidableEq, Repr

/-- A locally recorded change, described by its effect: whether it edited the
JSON root content, and the presence value it wrote. -/
structure Change where
  rootChanged : Bool
  presenceAfter : Presence
deriving DecidableEq, Repr

/-- A change pack: the ordered local changes packaged for the engine. -/
abbrev ChangePack := List Change

/-- An in-memory document snapshot: root content, current presence, and the
local mutations recorded since materialization. -/
structure Doc where
  root : JsonObject
  presence : Presence
  localChanges : List Change
deriving DecidableEq, Repr

/-- Modelled from the spec: `doc.Update(fn)` runs the callback on the root
and the presence; if the callback reports an error the document is left
unchanged and the error is returned, otherwise the mutation is recorded as a
local change. -/
def Doc.Update (d : Doc)
    (fn : JsonObject → Presence → JsonObject × Presence × Option Err) :
    Except Err Doc :=
  match fn d.root d.presence with
  | (_, _, some e) => .error e
  | (root2, p2, none) =>
      .ok { root := root2
            presence := p2
            localChanges :=
              d.localChanges ++ [⟨decide (root2 ≠ d.root), p2⟩] }

/-- Modelled from the spec (§4.3): `doc.CreateChangePack()` packages "any
local mutations applied after materialization". -/
def Doc.CreateChangePack (d : Doc) : ChangePack := d.localChanges

/-- Synchronization mode, `types.SyncMode`. -/
inductive SyncMode where
  | pushPull
  | pushOnly
  | pullOnly
deriving DecidableEq, Repr

/-- Lifecycle statuses of a document, `document.StatusAttached` etc. -/
inductive DocStatus where
  | attached
  | detached
  | removed
deriving DecidableEq, Repr

/-- Options handed to the engine, `packs.PushPullOptions`. -/
structure PushPullOptions where
  mode : SyncMode
  status : DocStatus
deriving DecidableEq, Repr

/-- The update callback passed by `DetachDocument` to `doc.Update`, verbatim
from the source: it clears the presence, leaves the root alone, and returns
nil. -/
def detachUpdateFn : JsonObject → Presence → JsonObject × Presence × Option Err :=
  fun root p => (root, p.Clear, none)

/-- The behaviours of the external collaborators that `DetachDocument`
invokes.  Each is a fallible function, so that every failure mode of the Go
code can be exercised. -/
structure Env where
  newLocker : PushPullKey → Except Err Unit
  lock : PushPullKey → Except Err Unit
  unlock : PushPullKey → Except Err Unit
  findActiveClientInfo : ClientRefKey → Except Err ClientInfo
  findDocInfoByRefKey : DocRefKey → Except Err DocInfo
  buildDocForCheckpoint :
    DocInfo → Checkpoint → ActorID → Except Err (JsonObject × Presence)
  pushPull :
    Project → ClientInfo → DocInfo → ChangePack → PushPullOptions →
      Except Err Unit

/-- One observable step of `DetachDocument`: a collaborator call (with the
arguments that matter to the claims), the local update, or the logging of a
failed unlock. -/
inductive Step where
  | newLocker (key : PushPullKey)
  | lock (key : PushPullKey) (ok : Bool)
  | unlock (key : PushPullKey) (ok : Bool)
  | logUnlockError
  | findClient (key : ClientRefKey)
  | findDoc (key : DocRefKey)
  | buildDoc (cp : Checkpoint) (actor : ActorID)
  | localUpdate
  | pushPull (pack : ChangePack) (opts : PushPullOptions)
deriving DecidableEq, Repr

/-- The trace of the deferred unlock: the unlock call, followed by the error
log when it failed.  Its outcome never feeds back into the function's
result. -/
def unlockSteps (env : Env) (key : PushPullKey) : List Step :=
  match env.unlock key with
  | .ok _ => [.unlock key true]
  | .error _ => [.unlock key false, .logUnlockError]

/-- The body of `DetachDocument` guarded by the lock (source lines 78-127):
client lookup, document lookup, snapshot build, local presence-clear update,
and the Push-Pull commit. -/
def detachBody (env : Env) (project : Project) (summary : DocumentSummary)
    (actorID : ActorID) :
    Except Err ClusterServiceDetachDocumentResponse × List Step :=
  let clientRefKey : ClientRefKey := ⟨project.id, IDFromActorID actorID⟩
  match env.findActiveClientInfo clientRefKey with
  | .error e => (.error e, [.findClient clientRefKey])
  | .ok clientInfo =>
    let docRefKey : DocRefKey := ⟨project.id, summary.id⟩
    match env.findDocInfoByRefKey docRefKey with
    | .error e => (.error e, [.findClient clientRefKey, .findDoc docRefKey])
    | .ok docInfo =>
      let cp := clientInfo.checkpoint summary.id
      match env.buildDocForCheckpoint docInfo cp actorID with
      | .error e =>
          (.error e,
           [.findClient clientRefKey, .findDoc docRefKey,
            .buildDoc cp actorID])
      | .ok (root, pres) =>
        let doc : Doc := ⟨root, pres, []⟩
        match doc.Update detachUpdateFn with
        | .error e =>
            (.error e,
             [.findClient clientRefKey, .findDoc docRefKey,
              .buildDoc cp actorID, .localUpdate])
        | .ok doc2 =>
          let pack := doc2.CreateChangePack
          let opts : PushPullOptions := ⟨.pushPull, .detached⟩
          match env.pushPull project clientInfo docInfo pack opts with
          | .error e =>
              (.error e,
               [.findClient clientRefKey, .findDoc docRefKey,
                .buildDoc cp actorID, .localUpdate, .pushPull pack opts])
          | .ok _ =>
              (.ok ⟨⟩,
               [.findClient clientRefKey, .findDoc docRefKey,
                .buildDoc cp actorID, .localUpdate, .pushPull pack opts])

/-- Shallow embedding of `clusterServer.DetachDocument` (source lines
52-128).  The first component is the Go `(response, error)` pair rendered as
an `Except`; the second is the trace of steps performed, in order. -/
def DetachDocument (env : Env) (req : DetachRequest) :
    Except Err ClusterServiceDetachDocumentResponse × List Step :=
  match ActorIDFromHex req.clientId with
  | .error e => (.error e, [])
  | .ok actorID =>
    let summary := FromDocumentSummary req.documentSummary
    let project := FromProject req.project
    let key : PushPullKey := ⟨project.id, summary.key⟩
    match env.newLocker key with
    | .error e => (.error e, [.newLocker key])
    | .ok _ =>
      match env.lock key with
      | .error e => (.error e, [.newLocker key, .lock key false])
      | .ok _ =>
        let bodyOut := detachBody env project summary actorID
        (bodyOut.1,
         [.newLocker key, .lock key true] ++ bodyOut.2 ++ unlockSteps env key)

/-- The lock key that `DetachDocument` constructs for a request. -/
def detachKey (req : DetachRequest) : PushPullKey :=
  ⟨(FromProject req.project).id, (FromDocumentSummary req.documentSummary).key⟩

/-- Does the step record an unlock call? -/
def Step.isUnlock : Step → Bool
  | .unlock _ _ => true
  | _ => false

/-- Does the step record a successful lock acquisition? -/
def Step.isLockOk : Step → Bool
  | .lock _ true => true
  | _ => false

/-- Does the step record a failed unlock call? -/
def Step.isUnlockFailed : Step → Bool
  | .unlock _ false => true
  | _ => false

/-- Characterization of the steps that the lock-guarded body may emit: only
directory lookups, the snapshot build, the local update, and a Push-Pull call
whose pack is the single presence-clear change (root untouched) and whose
options are mode PushPull with target status Detached. -/
def Step.bodyOk : Step → Bool
  | .findClient _ => true
  | .findDoc _ => true
  | .buildDoc _ _ => true
  | .localUpdate => true
  | .pushPull pack opts =>
      decide (pack = [⟨false, ⟨[]⟩⟩] ∧
        opts = ⟨SyncMode.pushPull, DocStatus.detached⟩)
  | _ => false

theorem bodyOk_not_isUnlock (st : Step) (h : Step.bodyOk st = true) :
    Step.isUnlock st = false := by
  cases st <;> simp_all [Step.bodyOk, Step.isUnlock]

theorem bodyOk_not_isLockOk (st : Step) (h : Step.bodyOk st = true) :
    Step.isLockOk st = false := by
  cases st <;> simp_all [Step.bodyOk, Step.isLockOk]

theorem bodyOk_not_isUnlockFailed (st : Step) (h : Step.bodyOk st = true) :
    Step.isUnlockFailed st = false := by
  cases st <;> simp_all [Step.bodyOk, Step.isUnlockFailed]

theorem bodyOk_not_newLocker (st : Step) (h : Step.bodyOk st = true)
    (k : PushPullKey) : st ≠ .newLocker k := by
  cases st <;> simp_all [Step.bodyOk]

/-- Every step the lock-guarded body emits satisfies `Step.bodyOk`. -/
theorem detachBody_steps (env : Env) (p : Project) (s : DocumentSummary)
    (a : ActorID) : ((detachBody env p s a).2).all Step.bodyOk = true := by
  simp only [detachBody, Doc.Update, detachUpdateFn, Presence.Clear,
    Doc.CreateChangePack, List.nil_append]
  repeat' split
  all_goals simp [Step.bodyOk]

/-- The deferred unlock emits exactly one of two suffixes: a successful
unlock, or a failed unlock followed by the error log. -/
theorem unlockSteps_cases (env : Env) (k : PushPullKey) :
    unlockSteps env k = [.unlock k true] ∨
    unlockSteps env k = [.unlock k false, .logUnlockError] := by
  unfold unlockSteps
  split <;> simp

/-- Master case analysis on the trace of `DetachDocument`: it is empty
(parse failure), stops at locker construction, stops at a failed lock, or
consists of the lock acquisition, a body trace of `bodyOk` steps, and the
deferred-unlock suffix. -/
theorem detach_trace_cases (env : Env) (req : DetachRequest) :
    (DetachDocument env req).2 = [] ∨
    (DetachDocument env req).2 = [.newLocker (detachKey req)] ∨
    (DetachDocument env req).2 =
      [.newLocker (detachKey req), .lock (detachKey req) false] ∨
    ∃ t, t.all Step.bodyOk = true ∧
      (DetachDocument env req).2 =
        [.newLocker (detachKey req), .lock (detachKey req) true] ++ t ++
          unlockSteps env (detachKey req) := by
  simp only [DetachDocument, detachKey, FromProject, FromDocumentSummary]
  repeat' split
  · left; rfl
  · right; left; rfl
  · right; right; left; rfl
  · right; right; right
    exact ⟨_, detachBody_steps _ _ _ _, rfl⟩

/-- Test fixture: a client record with checkpoint (5, 3) on every document. -/
def clientA : ClientInfo := ⟨fun _ => ⟨5, 3⟩⟩

/-- Test fixture: a document record. -/
def docInfoA : DocInfo := ⟨⟨"p1", "docid1"⟩⟩

/-- Test fixture: an environment in which every collaborator succeeds. -/
def envOK : Env :=
  { newLocker := fun _ => .ok ()
    lock := fun _ => .ok ()
    unlock := fun _ => .ok ()
    findActiveClientInfo := fun _ => .ok clientA
    findDocInfoByRefKey := fun _ => .ok docInfoA
    buildDocForCheckpoint := fun _ _ _ => .ok (⟨7⟩, ⟨[("cursor", "3")]⟩)
    pushPull := fun _ _ _ _ _ => .ok () }

/-- Test fixture: a well-formed request. -/
def reqOK : DetachRequest :=
  ⟨"0123456789abcdef01234567", ⟨"docid1", "dkey1"⟩, ⟨"p1"⟩⟩

/-- Test fixture: a second request with the same project id and document key
but a different client and document id. -/
def reqOK2 : DetachRequest :=
  ⟨"aaaabbbbccccddddeeeeffff", ⟨"docid9", "dkey1"⟩, ⟨"p1"⟩⟩

/-- Test fixture: a request whose client id is not valid hex. -/
def reqBad : DetachRequest :=
  ⟨"zz!x", ⟨"docid1", "dkey1"⟩, ⟨"p1"⟩⟩

/-- Test fixture: locker construction fails. -/
def envNewLockerFail : Env :=
  { envOK with newLocker := fun _ => .error .lockUnavailable }

/-- Test fixture: lock acquisition fails. -/
def envLockFail : Env :=
  { envOK with lock := fun _ => .error .lockTimeout }

/-- Test fixture: unlock fails. -/
def envUnlockFail : Env :=
  { envOK with unlock := fun _ => .error (.other 1) }

/-- Test fixture: the client lookup fails. -/
def envClientFail : Env :=
  { envOK with findActiveClientInfo := fun _ => .error .clientNotFound }

/-- Test fixture: the document lookup fails. -/
def envDocFail : Env :=
  { envOK with findDocInfoByRefKey := fun _ => .error .docNotFound }

/-- Test fixture: the snapshot build fails. -/
def envBuildFail : Env :=
  { envOK with buildDocForCheckpoint := fun _ _ _ => .error .snapshotBuildFailed }

/-- Test fixture: the Push-Pull commit fails. -/
def envPushFail : Env :=
  { envOK with pushPull := fun _ _ _ _ _ => .error .staleChangePack }

/-- C1: For every successful call, DetachDocument performs its steps in
exactly this order: acquire the per-document lock (after constructing the
locker), look up the client record, look up the document record, build a
document snapshot at the client's last-known checkpoint for that document
(taken from the ClientInfo record, keyed by the summary's document id),
apply a local presence-clear mutation, package the result as a ChangePack,
hand it to the Push-Pull engine with a target lifecycle status, release the
lock, and return; no step runs before all earlier steps have succeeded. -/
theorem detach_success_step_order (env : Env) (req : DetachRequest)
    (a : ActorID) (c : ClientInfo) (d : DocInfo) (root : JsonObject)
    (pres : Presence)
    (ha : ActorIDFromHex req.clientId = .ok a)
    (hnl : env.newLocker (detachKey req) = .ok ())
    (hl : env.lock (detachKey req) = .ok ())
    (hc : env.findActiveClientInfo ⟨req.project.id, IDFromActorID a⟩ = .ok c)
    (hd : env.findDocInfoByRefKey ⟨req.project.id, req.documentSummary.id⟩ =
      .ok d)
    (hb : env.buildDocForCheckpoint d (c.checkpoint req.documentSummary.id) a =
      .ok (root, pres))
    (hp : env.pushPull req.project c d [⟨false, ⟨[]⟩⟩]
      ⟨.pushPull, .detached⟩ = .ok ()) :
    DetachDocument env req =
      (.ok ⟨⟩,
       [.newLocker (detachKey req), .lock (detachKey req) true,
        .findClient ⟨req.project.id, IDFromActorID a⟩,
        .findDoc ⟨req.project.id, req.documentSummary.id⟩,
        .buildDoc (c.checkpoint req.documentSummary.id) a,
        .localUpdate,
        .pushPull [⟨false, ⟨[]⟩⟩] ⟨.pushPull, .detached⟩]
       ++ unlockSteps env (detachKey req)) := by
  simp only [detachKey, FromProject, FromDocumentSummary] at hnl hl ⊢
  simp [DetachDocument, detachBody, FromProject, FromDocumentSummary,
    ha, hnl, hl, hc, hd, hb, hp, Doc.Update, detachUpdateFn, Presence.Clear,
    Doc.CreateChangePack]

theorem detach_success_step_order_witness :
    DetachDocument envOK reqOK =
      (.ok ⟨⟩,
       [.newLocker ⟨"p1", "dkey1"⟩, .lock ⟨"p1", "dkey1"⟩ true,
        .findClient ⟨"p1", "0123456789abcdef01234567"⟩,
        .findDoc ⟨"p1", "docid1"⟩,
        .buildDoc ⟨5, 3⟩ ⟨"0123456789abcdef01234567"⟩,
        .localUpdate,
        .pushPull [⟨false, ⟨[]⟩⟩] ⟨.pushPull, .detached⟩,
        .unlock ⟨"p1", "dkey1"⟩ true]) :=
  detach_success_step_order envOK reqOK ⟨"0123456789abcdef01234567"⟩
    clientA docInfoA ⟨7⟩ ⟨[("cursor", "3")]⟩ rfl rfl rfl rfl rfl rfl rfl

/-- C2: For every request whose client-id field is not a valid hex-encoded
ActorID, DetachDocument returns the ActorID parse error (InvalidActorID)
without constructing or acquiring any lock and without performing any
directory lookup, snapshot build, or push-pull commit: its trace is empty. -/
theorem detach_invalid_actor_fail_fast (env : Env) (req : DetachRequest)
    (e : Err) (h : ActorIDFromHex req.clientId = .error e) :
    DetachDocument env req = (.error Err.invalidActorID, []) := by
  have he : e = Err.invalidActorID := by
    unfold ActorIDFromHex at h
    split at h
    · exact absurd h (by simp)
    · exact (Except.error.injEq _ _ ▸ h).symm ▸ rfl
  subst he
  simp [DetachDocument, h]

theorem detach_invalid_actor_fail_fast_witness :
    DetachDocument envOK reqBad = (.error Err.invalidActorID, []) :=
  detach_invalid_actor_fail_fast envOK reqBad Err.invalidActorID rfl

/-- C4: For every call in which acquiring the document lock fails (for
example because the caller's deadline expires while waiting), DetachDocument
returns that lock error, and its trace shows no directory lookups, no
snapshot build, and no push-pull persistence. -/
theorem detach_lock_failure_no_effects (env : Env) (req : DetachRequest)
    (a : ActorID) (e : Err)
    (ha : ActorIDFromHex req.clientId = .ok a)
    (hnl : env.newLocker (detachKey req) = .ok ())
    (hl : env.lock (detachKey req) = .error e) :
    DetachDocument env req =
      (.error e,
       [.newLocker (detachKey req), .lock (detachKey req) false]) := by
  simp only [detachKey, FromProject, FromDocumentSummary] at hnl hl ⊢
  simp [DetachDocument, FromProject, FromDocumentSummary, ha, hnl, hl]

theorem detach_lock_failure_no_effects_witness :
    DetachDocument envLockFail reqOK =
      (.error Err.lockTimeout,
       [.newLocker ⟨"p1", "dkey1"⟩, .lock ⟨"p1", "dkey1"⟩ false]) :=
  detach_lock_failure_no_effects envLockFail reqOK
    ⟨"0123456789abcdef01234567"⟩ Err.lockTimeout rfl rfl rfl

/-- C7: For every call in which all steps succeed, DetachDocument returns a
response carrying no payload (an empty ClusterServiceDetachDocumentResponse)
and a nil error. -/
theorem detach_success_empty_response (env : Env) (req : DetachRequest)
    (a : ActorID) (c : ClientInfo) (d : DocInfo) (root : JsonObject)
    (pres : Presence)
    (ha : ActorIDFromHex req.clientId = .ok a)
    (hnl : env.newLocker (detachKey req) = .ok ())
    (hl : env.lock (detachKey req) = .ok ())
    (hc : env.findActiveClientInfo ⟨req.project.id, IDFromActorID a⟩ = .ok c)
    (hd : env.findDocInfoByRefKey ⟨req.project.id, req.documentSummary.id⟩ =
      .ok d)
    (hb : env.buildDocForCheckpoint d (c.checkpoint req.documentSummary.id) a =
      .ok (root, pres))
    (hp : env.pushPull req.project c d [⟨false, ⟨[]⟩⟩]
      ⟨.pushPull, .detached⟩ = .ok ()) :
    (DetachDocument env req).1 = .ok ClusterServiceDetachDocumentResponse.mk := by
  simp only [detachKey, FromProject, FromDocumentSummary] at hnl hl
  simp [DetachDocument, detachBody, FromProject, FromDocumentSummary,
    ha, hnl, hl, hc, hd, hb, hp, Doc.Update, detachUpdateFn, Presence.Clear,
    Doc.CreateChangePack]

theorem detach_success_empty_response_witness :
    (DetachDocument envOK reqOK).1 = .ok ClusterServiceDetachDocumentResponse.mk :=
  detach_success_empty_response envOK reqOK ⟨"0123456789abcdef01234567"⟩
    clientA docInfoA ⟨7⟩ ⟨[("cursor", "3")]⟩ rfl rfl rfl rfl rfl rfl rfl

/-- C3: For every execution of DetachDocument in which the lock was
acquired, an unlock is invoked on every exit path, a failed unlock is
followed only by an error log, and the unlock behaviour never changes the
response/error pair that DetachDocument returns, which is determined before
unlock is attempted. -/
theorem detach_unlock_guaranteed :
    (∀ (env : Env) (req : DetachRequest),
        ((DetachDocument env req).2.any Step.isLockOk) = true →
        ((DetachDocument env req).2.any Step.isUnlock) = true) ∧
    (∀ (env : Env) (req : DetachRequest),
        ((DetachDocument env req).2.any Step.isUnlockFailed) = true →
        Step.logUnlockError ∈ (DetachDocument env req).2) ∧
    (∀ (env : Env) (u : PushPullKey → Except Err Unit) (req : DetachRequest),
        (DetachDocument { env with unlock := u } req).1 =
          (DetachDocument env req).1) := by
  refine ⟨?_, ?_, ?_⟩
  · intro env req h
    rcases detach_trace_cases env req with h1 | h1 | h1 | ⟨t, ht, h1⟩ <;>
      rw [h1] at h ⊢
    · simp at h
    · simp [Step.isLockOk] at h
    · simp [Step.isLockOk] at h
    · rcases unlockSteps_cases env (detachKey req) with h2 | h2 <;>
        rw [h2] <;> simp [Step.isUnlock]
  · intro env req h
    rcases detach_trace_cases env req with h1 | h1 | h1 | ⟨t, ht, h1⟩ <;>
      rw [h1] at h ⊢
    · simp at h
    · simp [Step.isUnlockFailed] at h
    · simp [Step.isUnlockFailed] at h
    · have htf : t.any Step.isUnlockFailed = false := by
        rw [List.any_eq_false]
        intro st hst
        simp [bodyOk_not_isUnlockFailed st (List.all_eq_true.mp ht st hst)]
      rcases unlockSteps_cases env (detachKey req) with h2 | h2 <;>
        rw [h2] at h ⊢ <;>
        simp [List.any_append, htf, Step.isUnlockFailed] at h ⊢
  · intro env u req
    simp only [DetachDocument]
    repeat' split
    all_goals rfl

theorem detach_unlock_guaranteed_witness :
    ((DetachDocument envOK reqOK).2.any Step.isUnlock) = true ∧
    Step.logUnlockError ∈ (DetachDocument envUnlockFail reqOK).2 ∧
    (DetachDocument { envOK with unlock := fun _ => .error Err.lockUnavailable }
        reqOK).1 = (DetachDocument envOK reqOK).1 :=
  ⟨detach_unlock_guaranteed.1 envOK reqOK (by decide),
   detach_unlock_guaranteed.2.1 envUnlockFail reqOK (by decide),
   detach_unlock_guaranteed.2.2 envOK (fun _ => .error Err.lockUnavailable) reqOK⟩

/-- C5: Every detach clears the client's presence for the document as part
of the same reconciliation: whenever DetachDocument reaches the Push-Pull
engine, the pack it hands over is exactly the single presence-clear change
(produced by the local update on the built document) and the options carry
mode PushPull and target status Detached. -/
theorem detach_presence_clear_pushpull (env : Env) (req : DetachRequest)
    (pack : ChangePack) (opts : PushPullOptions)
    (h : Step.pushPull pack opts ∈ (DetachDocument env req).2) :
    pack = [⟨false, ⟨[]⟩⟩] ∧
    opts = ⟨SyncMode.pushPull, DocStatus.detached⟩ := by
  rcases detach_trace_cases env req with h1 | h1 | h1 | ⟨t, ht, h1⟩ <;>
    rw [h1] at h
  · simp at h
  · simp at h
  · simp at h
  · rcases unlockSteps_cases env (detachKey req) with h2 | h2 <;>
      rw [h2] at h <;>
      simp only [List.mem_append, List.mem_cons, List.not_mem_nil, or_false,
        List.mem_singleton] at h
    · rcases h with (h | h) | h | h
      all_goals first
        | simp at h
        | { have hb := List.all_eq_true.mp ht _ h
            simp [Step.bodyOk] at hb
            exact ⟨hb.1, hb.2⟩ }
    · rcases h with ((h | h) | h) | h | h
      all_goals first
        | simp at h
        | { have hb := List.all_eq_true.mp ht _ h
            simp [Step.bodyOk] at hb
            exact ⟨hb.1, hb.2⟩ }

theorem detach_presence_clear_pushpull_witness :
    ([⟨false, ⟨[]⟩⟩] : ChangePack) = [⟨false, ⟨[]⟩⟩] ∧
    (⟨SyncMode.pushPull, DocStatus.detached⟩ : PushPullOptions) =
      ⟨SyncMode.pushPull, DocStatus.detached⟩ :=
  detach_presence_clear_pushpull envOK reqOK [⟨false, ⟨[]⟩⟩]
    ⟨SyncMode.pushPull, DocStatus.detached⟩ (by decide)

/-- C8: The lock key used by DetachDocument is purely a function of the pair
(projectID, documentKey): every locker-construction step in any trace uses
exactly the key built from the request's project id and document key, and
two requests agreeing on that pair yield equal keys, with no dependence on
any other request field or hidden state. -/
theorem detach_lock_key_pure :
    (∀ (env : Env) (req : DetachRequest) (k : PushPullKey),
        Step.newLocker k ∈ (DetachDocument env req).2 → k = detachKey req) ∧
    (∀ req1 req2 : DetachRequest,
        req1.project.id = req2.project.id →
        req1.documentSummary.key = req2.documentSummary.key →
        detachKey req1 = detachKey req2) := by
  constructor
  · intro env req k h
    rcases detach_trace_cases env req with h1 | h1 | h1 | ⟨t, ht, h1⟩ <;>
      rw [h1] at h
    · simp at h
    · simpa using h
    · simpa using h
    · rcases unlockSteps_cases env (detachKey req) with h2 | h2 <;>
        rw [h2] at h <;> simp at h <;>
        [rcases h with h | h; rcases h with h | h] <;>
        first
          | exact h
          | { have hb := List.all_eq_true.mp ht _ h
              simp [Step.bodyOk] at hb }
  · intro req1 req2 h1 h2
    unfold detachKey FromProject FromDocumentSummary
    rw [h1, h2]

theorem detach_lock_key_pure_witness :
    (⟨"p1", "dkey1"⟩ : PushPullKey) = detachKey reqOK ∧
    detachKey reqOK = detachKey reqOK2 :=
  ⟨detach_lock_key_pure.1 envOK reqOK ⟨"p1", "dkey1"⟩ (by decide),
   detach_lock_key_pure.2 reqOK reqOK2 rfl rfl⟩

/-- C9: In every execution of DetachDocument, unlock is called exactly once
if the lock was acquired and never otherwise; and when locker construction
itself fails, its error is returned with no lock or unlock call having
occurred. -/
theorem detach_unlock_exactly_once :
    (∀ (env : Env) (req : DetachRequest),
        (DetachDocument env req).2.countP Step.isUnlock =
          (if (DetachDocument env req).2.any Step.isLockOk then 1 else 0)) ∧
    (∀ (env : Env) (req : DetachRequest) (a : ActorID) (e : Err),
        ActorIDFromHex req.clientId = .ok a →
        env.newLocker (detachKey req) = .error e →
        DetachDocument env req = (.error e, [.newLocker (detachKey req)])) := by
  constructor
  · intro env req
    rcases detach_trace_cases env req with h1 | h1 | h1 | ⟨t, ht, h1⟩ <;> rw [h1]
    · simp
    · simp [Step.isUnlock, Step.isLockOk]
    · simp [Step.isUnlock, Step.isLockOk]
    · have hcount : t.countP Step.isUnlock = 0 := by
        rw [List.countP_eq_zero]
        intro st hst
        simp [bodyOk_not_isUnlock st (List.all_eq_true.mp ht st hst)]
      rcases unlockSteps_cases env (detachKey req) with h2 | h2 <;> rw [h2] <;>
        simp [List.countP_append, List.any_append, hcount, List.countP_cons,
          Step.isUnlock, Step.isLockOk]
  · intro env req a e ha hnl
    simp only [detachKey, FromProject, FromDocumentSummary] at hnl ⊢
    simp [DetachDocument, FromProject, FromDocumentSummary, ha, hnl]

theorem detach_unlock_exactly_once_witness :
    (DetachDocument envOK reqOK).2.countP Step.isUnlock =
      (if (DetachDocument envOK reqOK).2.any Step.isLockOk then 1 else 0) ∧
    DetachDocument envNewLockerFail reqOK =
      (.error Err.lockUnavailable, [.newLocker ⟨"p1", "dkey1"⟩]) :=
  ⟨detach_unlock_exactly_once.1 envOK reqOK,
   detach_unlock_exactly_once.2 envNewLockerFail reqOK
     ⟨"0123456789abcdef01234567"⟩ Err.lockUnavailable rfl rfl⟩

/-- C10: The only local mutation DetachDocument applies to the built
document before packaging is clearing the client's presence: the update
callback leaves the JSON root untouched and always returns nil, and every
ChangePack handed to the Push-Pull engine is the single change that edits no
root content and writes the empty presence. -/
theorem detach_update_frame :
    (∀ (root : JsonObject) (p : Presence),
        detachUpdateFn root p = (root, ⟨[]⟩, none)) ∧
    (∀ (env : Env) (req : DetachRequest) (pack : ChangePack)
        (opts : PushPullOptions),
        Step.pushPull pack opts ∈ (DetachDocument env req).2 →
        pack = [{ rootChanged := false, presenceAfter := ⟨[]⟩ }]) := by
  constructor
  · intro root p
    rfl
  · intro env req pack opts h
    rcases detach_trace_cases env req with h1 | h1 | h1 | ⟨t, ht, h1⟩ <;>
      rw [h1] at h
    · simp at h
    · simp at h
    · simp at h
    · rcases unlockSteps_cases env (detachKey req) with h2 | h2 <;>
        rw [h2] at h <;>
        simp only [List.mem_append, List.mem_cons, List.not_mem_nil, or_false,
          List.mem_singleton] at h
      · rcases h with (h | h) | h | h
        all_goals first
          | simp at h
          | { have hb := List.all_eq_true.mp ht _ h
              simp [Step.bodyOk] at hb
              exact hb.1 }
      · rcases h with ((h | h) | h) | h | h
        all_goals first
          | simp at h
          | { have hb := List.all_eq_true.mp ht _ h
              simp [Step.bodyOk] at hb
              exact hb.1 }

theorem detach_update_frame_witness :
    detachUpdateFn ⟨7⟩ ⟨[("cursor", "3")]⟩ = (⟨7⟩, ⟨[]⟩, none) ∧
    ([⟨false, ⟨[]⟩⟩] : ChangePack) =
      [{ rootChanged := false, presenceAfter := ⟨[]⟩ }] :=
  ⟨detach_update_frame.1 ⟨7⟩ ⟨[("cursor", "3")]⟩,
   detach_update_frame.2 envOK reqOK [⟨false, ⟨[]⟩⟩]
     ⟨SyncMode.pushPull, DocStatus.detached⟩ (by decide)⟩

/-- C6: For every failing call, DetachDocument returns a nil response
together with exactly the error produced by the first failing step —
actor-id parse, locker construction, lock acquisition, client lookup,
document lookup, snapshot build, local update (which in fact can never
fail), or engine commit — and executes none of the steps after the failing
one, as witnessed by the exact trace of each failure. -/
theorem detach_first_failure_exact :
    (∀ (env : Env) (req : DetachRequest) (e : Err),
        ActorIDFromHex req.clientId = .error e →
        DetachDocument env req = (.error e, [])) ∧
    (∀ (env : Env) (req : DetachRequest) (a : ActorID) (e : Err),
        ActorIDFromHex req.clientId = .ok a →
        env.newLocker (detachKey req) = .error e →
        DetachDocument env req = (.error e, [.newLocker (detachKey req)])) ∧
    (∀ (env : Env) (req : DetachRequest) (a : ActorID) (e : Err),
        ActorIDFromHex req.clientId = .ok a →
        env.newLocker (detachKey req) = .ok () →
        env.lock (detachKey req) = .error e →
        DetachDocument env req =
          (.error e,
           [.newLocker (detachKey req), .lock (detachKey req) false])) ∧
    (∀ (env : Env) (req : DetachRequest) (a : ActorID) (e : Err),
        ActorIDFromHex req.clientId = .ok a →
        env.newLocker (detachKey req) = .ok () →
        env.lock (detachKey req) = .ok () →
        env.findActiveClientInfo ⟨req.project.id, IDFromActorID a⟩ =
          .error e →
        DetachDocument env req =
          (.error e,
           [.newLocker (detachKey req), .lock (detachKey req) true,
            .findClient ⟨req.project.id, IDFromActorID a⟩] ++
             unlockSteps env (detachKey req))) ∧
    (∀ (env : Env) (req : DetachRequest) (a : ActorID) (c : ClientInfo)
        (e : Err),
        ActorIDFromHex req.clientId = .ok a →
        env.newLocker (detachKey req) = .ok () →
        env.lock (detachKey req) = .ok () →
        env.findActiveClientInfo ⟨req.project.id, IDFromActorID a⟩ = .ok c →
        env.findDocInfoByRefKey ⟨req.project.id, req.documentSummary.id⟩ =
          .error e →
        DetachDocument env req =
          (.error e,
           [.newLocker (detachKey req), .lock (detachKey req) true,
            .findClient ⟨req.project.id, IDFromActorID a⟩,
            .findDoc ⟨req.project.id, req.documentSummary.id⟩] ++
             unlockSteps env (detachKey req))) ∧
    (∀ (env : Env) (req : DetachRequest) (a : ActorID) (c : ClientInfo)
        (d : DocInfo) (e : Err),
        ActorIDFromHex req.clientId = .ok a →
        env.newLocker (detachKey req) = .ok () →
        env.lock (detachKey req) = .ok () →
        env.findActiveClientInfo ⟨req.project.id, IDFromActorID a⟩ = .ok c →
        env.findDocInfoByRefKey ⟨req.project.id, req.documentSummary.id⟩ =
          .ok d →
        env.buildDocForCheckpoint d (c.checkpoint req.documentSummary.id) a =
          .error e →
        DetachDocument env req =
          (.error e,
           [.newLocker (detachKey req), .lock (detachKey req) true,
            .findClient ⟨req.project.id, IDFromActorID a⟩,
            .findDoc ⟨req.project.id, req.documentSummary.id⟩,
            .buildDoc (c.checkpoint req.documentSummary.id) a] ++
             unlockSteps env (detachKey req))) ∧
    (∀ doc : Doc, ∃ d2, doc.Update detachUpdateFn = Except.ok d2) ∧
    (∀ (env : Env) (req : DetachRequest) (a : ActorID) (c : ClientInfo)
        (d : DocInfo) (root : JsonObject) (pres : Presence) (e : Err),
        ActorIDFromHex req.clientId = .ok a →
        env.newLocker (detachKey req) = .ok () →
        env.lock (detachKey req) = .ok () →
        env.findActiveClientInfo ⟨req.project.id, IDFromActorID a⟩ = .ok c →
        env.findDocInfoByRefKey ⟨req.project.id, req.documentSummary.id⟩ =
          .ok d →
        env.buildDocForCheckpoint d (c.checkpoint req.documentSummary.id) a =
          .ok (root, pres) →
        env.pushPull req.project c d [⟨false, ⟨[]⟩⟩]
          ⟨.pushPull, .detached⟩ = .error e →
        DetachDocument env req =
          (.error e,
           [.newLocker (detachKey req), .lock (detachKey req) true,
            .findClient ⟨req.project.id, IDFromActorID a⟩,
            .findDoc ⟨req.project.id, req.documentSummary.id⟩,
            .buildDoc (c.checkpoint req.documentSummary.id) a,
            .localUpdate,
            .pushPull [⟨false, ⟨[]⟩⟩] ⟨.pushPull, .detached⟩] ++
             unlockSteps env (detachKey req))) := by
  refine ⟨?_, ?_, ?_, ?_, ?_, ?_, ?_, ?_⟩
  · intro env req e h
    have he : e = Err.invalidActorID := by
      unfold ActorIDFromHex at h
      split at h
      · exact absurd h (by simp)
      · exact (Except.error.injEq _ _ ▸ h).symm ▸ rfl
    subst he
    simp [DetachDocument, h]
  · intro env req a e ha hnl
    simp only [detachKey, FromProject, FromDocumentSummary] at hnl ⊢
    simp [DetachDocument, FromProject, FromDocumentSummary, ha, hnl]
  · intro env req a e ha hnl hl
    simp only [detachKey, FromProject, FromDocumentSummary] at hnl hl ⊢
    simp [DetachDocument, FromProject, FromDocumentSummary, ha, hnl, hl]
  · intro env req a e ha hnl hl hc
    simp only [detachKey, FromProject, FromDocumentSummary] at hnl hl ⊢
    simp [DetachDocument, detachBody, FromProject, FromDocumentSummary,
      ha, hnl, hl, hc]
  · intro env req a c e ha hnl hl hc hd
    simp only [detachKey, FromProject, FromDocumentSummary] at hnl hl ⊢
    simp [DetachDocument, detachBody, FromProject, FromDocumentSummary,
      ha, hnl, hl, hc, hd]
  · intro env req a c d e ha hnl hl hc hd hb
    simp only [detachKey, FromProject, FromDocumentSummary] at hnl hl ⊢
    simp [DetachDocument, detachBody, FromProject, FromDocumentSummary,
      ha, hnl, hl, hc, hd, hb]
  · intro doc
    exact ⟨_, rfl⟩
  · intro env req a c d root pres e ha hnl hl hc hd hb hp
    simp only [detachKey, FromProject, FromDocumentSummary] at hnl hl ⊢
    simp [DetachDocument, detachBody, FromProject, FromDocumentSummary,
      ha, hnl, hl, hc, hd, hb, hp, Doc.Update, detachUpdateFn,
      Presence.Clear, Doc.CreateChangePack]

theorem detach_first_failure_exact_witness :
    DetachDocument envOK reqBad = (.error Err.invalidActorID, []) ∧
    DetachDocument envNewLockerFail reqOK =
      (.error Err.lockUnavailable, [.newLocker ⟨"p1", "dkey1"⟩]) ∧
    DetachDocument envLockFail reqOK =
      (.error Err.lockTimeout,
       [.newLocker ⟨"p1", "dkey1"⟩, .lock ⟨"p1", "dkey1"⟩ false]) ∧
    DetachDocument envClientFail reqOK =
      (.error Err.clientNotFound,
       [.newLocker ⟨"p1", "dkey1"⟩, .lock ⟨"p1", "dkey1"⟩ true,
        .findClient ⟨"p1", "0123456789abcdef01234567"⟩,
        .unlock ⟨"p1", "dkey1"⟩ true]) ∧
    DetachDocument envDocFail reqOK =
      (.error Err.docNotFound,
       [.newLocker ⟨"p1", "dkey1"⟩, .lock ⟨"p1", "dkey1"⟩ true,
        .findClient ⟨"p1", "0123456789abcdef01234567"⟩,
        .findDoc ⟨"p1", "docid1"⟩,
        .unlock ⟨"p1", "dkey1"⟩ true]) ∧
    DetachDocument envBuildFail reqOK =
      (.error Err.snapshotBuildFailed,
       [.newLocker ⟨"p1", "dkey1"⟩, .lock ⟨"p1", "dkey1"⟩ true,
        .findClient ⟨"p1", "0123456789abcdef01234567"⟩,
        .findDoc ⟨"p1", "docid1"⟩,
        .buildDoc ⟨5, 3⟩ ⟨"0123456789abcdef01234567"⟩,
        .unlock ⟨"p1", "dkey1"⟩ true]) ∧
    (∃ d2, (Doc.mk ⟨1⟩ ⟨[("a", "b")]⟩ []).Update detachUpdateFn =
      Except.ok d2) ∧
    DetachDocument envPushFail reqOK =
      (.error Err.staleChangePack,
       [.newLocker ⟨"p1", "dkey1"⟩, .lock ⟨"p1", "dkey1"⟩ true,
        .findClient ⟨"p1", "0123456789abcdef01234567"⟩,
        .findDoc ⟨"p1", "docid1"⟩,
        .buildDoc ⟨5, 3⟩ ⟨"0123456789abcdef01234567"⟩,
        .localUpdate,
        .pushPull [⟨false, ⟨[]⟩⟩] ⟨.pushPull, .detached⟩,
        .unlock ⟨"p1", "dkey1"⟩ true]) :=
  ⟨detach_first_failure_exact.1 envOK reqBad Err.invalidActorID rfl,
   detach_first_failure_exact.2.1 envNewLockerFail reqOK
     ⟨"0123456789abcdef01234567"⟩ Err.lockUnavailable rfl rfl,
   detach_first_failure_exact.2.2.1 envLockFail reqOK
     ⟨"0123456789abcdef01234567"⟩ Err.lockTimeout rfl rfl rfl,
   detach_first_failure_exact.2.2.2.1 envClientFail reqOK
     ⟨"0123456789abcdef01234567"⟩ Err.clientNotFound rfl rfl rfl rfl,
   detach_first_failure_exact.2.2.2.2.1 envDocFail reqOK
     ⟨"0123456789abcdef01234567"⟩ clientA Err.docNotFound rfl rfl rfl rfl rfl,
   detach_first_failure_exact.2.2.2.2.2.1 envBuildFail reqOK
     ⟨"0123456789abcdef01234567"⟩ clientA docInfoA Err.snapshotBuildFailed
     rfl rfl rfl rfl rfl rfl,
   detach_first_failure_exact.2.2.2.2.2.2.1 (Doc.mk ⟨1⟩ ⟨[("a", "b")]⟩ []),
   detach_first_failure_exact.2.2.2.2.2.2.2 envPushFail reqOK
     ⟨"0123456789abcdef01234567"⟩ clientA docInfoA ⟨7⟩ ⟨[("cursor", "3")]⟩
     Err.staleChangePack rfl rfl rfl rfl rfl rfl rfl⟩

end Yorkie
